import Mathlib

/-!
Shallow embedding of the Guard-System AML repository (main.py, asr.py, tts.py,
llm.py, face_recognition_system.py).

External library calls (OpenCV capture, the face-embedding library, the cloud
speech API, gTTS/pygame, the transformers pipeline) are modelled as oracle
inputs: per-iteration parameters or function-valued fields that stand for the
result of the external call.  Times are naturals (seconds); the code compares
`time.time()` values with `>`, which on non-negative times agrees with the
natural-number comparisons used here.  Everything written by the repository
itself (queue wiring, loop phases, flag updates, string matching, fallback
dialogue logic) is translated directly from the source.
-/

namespace GuardSystem

/-- Abstract face encoding produced by the face-embedding library. -/
abbrev Enc := Nat

/-- Abstract camera frame. -/
abbrev Frame := Nat

/-- A face location rectangle (top, right, bottom, left). -/
abbrev Loc := Nat × Nat × Nat × Nat

/-- A recognition result entry: location paired with a name. -/
abbrev RFace := Loc × String

/-- Python `queue.Queue`: `maxsize = 0` means unbounded, as in the library. -/
structure PyQueue (α : Type) where
  maxsize : Nat
  items : List α
deriving Repr, DecidableEq

/-- `Queue.full()`: true iff the queue is bounded and at capacity. -/
def PyQueue.full (q : PyQueue α) : Bool :=
  decide (0 < q.maxsize ∧ q.maxsize ≤ q.items.length)

/-- `Queue.empty()`. -/
def PyQueue.isEmptyQ (q : PyQueue α) : Bool :=
  q.items.isEmpty

/-- `Queue.put(x)` (blocking): `none` means the call blocks because the queue
is full; otherwise the item is appended. -/
def PyQueue.put (q : PyQueue α) (a : α) : Option (PyQueue α) :=
  if q.full then none else some { q with items := q.items ++ [a] }

/-- `Queue.get_nowait()` / non-blocking get: `none` when empty. -/
def PyQueue.getNow (q : PyQueue α) : Option (α × PyQueue α) :=
  match q.items with
  | [] => none
  | a :: rest => some (a, { q with items := rest })

/-- Python `str.lower()` (ASCII part, which is all the command words use). -/
def pyLower (s : String) : String :=
  ⟨s.data.map Char.toLower⟩

/-- Substring test on character lists: Python `needle in hay`. -/
def listContainsSub (needle : List Char) : List Char → Bool
  | [] => needle.isEmpty
  | c :: rest => needle.isPrefixOf (c :: rest) || listContainsSub needle rest

/-- Python `needle in hay` on strings. -/
def strContains (hay needle : String) : Bool :=
  listContainsSub needle.data hay.data

/-! ## llm.py — IntruderConversationManager -/

/-- One entry of `conversation_history`. -/
structure Msg where
  role : String
  content : String
deriving Repr, DecidableEq

/-- Oracle for the transformers text-generation pipeline: maps the prompt to
the generated text, or to an error when the call raises. -/
abbrev Gen := String → Except Unit String

/-- State of `IntruderConversationManager`; `generator` is `none` when the
model failed to load (the rule-based fallback is then used). -/
structure ConvManager where
  conversation_active : Bool
  conversation_history : List Msg
  generator : Option Gen

/-- Fresh manager as built by `__init__` (before any conversation). -/
def ConvManager.init (gen : Option Gen) : ConvManager :=
  { conversation_active := false, conversation_history := [], generator := gen }

/-- The `system_prompt` string from `llm.py`. -/
def system_prompt : String :=
  "You are a security AI assistant. An unknown person has been detected in a restricted area. \nYour goal is to:\n1. Identify who they are and why they\x27re there\n2. Determine if they have authorization\n3. Keep them engaged while security is notified\n4. Be professional but firm\n\nKeep responses SHORT (1-2 sentences max) and conversational. Be direct and clear."

/-- The fixed responses list in `_get_fallback_response`. -/
def fallbackResponses : List String :=
  [ "I need you to identify yourself. Who are you?",
    "This area is under surveillance. Why are you here?",
    "Please state your purpose for being in this location.",
    "Security has been alerted. Please remain where you are.",
    "I\x27m waiting for your response. Why are you in this restricted area?" ]

/-- `_get_fallback_response`. -/
def ConvManager.fallbackResponse (m : ConvManager) (intruder_text : String) : String :=
  let intruder_lower := pyLower intruder_text
  let turn_count := (m.conversation_history.filter (fun msg => msg.role == "intruder")).length
  if turn_count == 0 then
    "Hello, I\x27ve detected your presence. Can you please identify yourself?"
  else if ["hello", "hi", "hey"].any (fun w => strContains intruder_lower w) then
    "Hello. This is a restricted area. Who are you and why are you here?"
  else if ["name is", "i am", "i\x27m", "my name"].any (fun w => strContains intruder_lower w) then
    "I see. Do you have authorization to be in this area? Can you provide a code or badge number?"
  else if ["authorized", "permission", "allowed", "badge"].any (fun w => strContains intruder_lower w) then
    "Please wait here while I verify your credentials. Security has been notified."
  else if ["no", "none", "leave me", "mind your"].any (fun w => strContains intruder_lower w) then
    "I must inform you that this area is under surveillance. Please comply or leave immediately."
  else if ["what", "where", "who", "confused", "lost"].any (fun w => strContains intruder_lower w) then
    "You are in a restricted area. If you are lost, please leave the way you came and contact security."
  else
    fallbackResponses.getD (min (turn_count - 1) (fallbackResponses.length - 1)) ""

/-- Prompt construction in `_generate_response` (system prompt, last six
history entries, trailing role tag). -/
def ConvManager.buildPrompt (m : ConvManager) : String :=
  let recent := m.conversation_history.drop (m.conversation_history.length - 6)
  (recent.foldl
      (fun acc msg =>
        if msg.role == "intruder" then acc ++ "Intruder: " ++ msg.content ++ "\n"
        else acc ++ "Security AI: " ++ msg.content ++ "\n")
      (system_prompt ++ "\n\n")) ++ "Security AI:"

/-- `_generate_response`: append the intruder message, produce the reply (LLM
with post-processing, falling back on error/empty/overlong output), append the
reply, return it together with the updated manager. -/
def ConvManager.generateResponse (m : ConvManager) (intruder_text : String) :
    String × ConvManager :=
  let m1 := { m with conversation_history := m.conversation_history ++ [Msg.mk "intruder" intruder_text] }
  let response :=
    match m1.generator with
    | none => m1.fallbackResponse intruder_text
    | some g =>
      match g m1.buildPrompt with
      | .error _ => m1.fallbackResponse intruder_text
      | .ok full =>
        let r0 := ((full.splitOn "Security AI:").getLastD "").trim
        let r1 := ((r0.splitOn "\n").headD "").trim
        if r1.isEmpty || decide (200 < r1.length) then m1.fallbackResponse intruder_text
        else r1
  (response, { m1 with conversation_history := m1.conversation_history ++ [Msg.mk "assistant" response] })

/-- The opening message of `start_conversation`. -/
def openingMessage : String :=
  "Attention! I have detected an unknown person. Please identify yourself immediately."

/-- `start_conversation`: activate, reset history to the opening message,
return the opening message. -/
def ConvManager.startConversation (m : ConvManager) : String × ConvManager :=
  (openingMessage,
   { m with conversation_active := true, conversation_history := [Msg.mk "assistant" openingMessage] })

/-- `process_intruder_response`. -/
def ConvManager.processIntruderResponse (m : ConvManager) (intruder_text : String) :
    String × ConvManager :=
  if !m.conversation_active then m.startConversation
  else m.generateResponse intruder_text

/-- `end_conversation`. -/
def ConvManager.endConversation (m : ConvManager) : ConvManager :=
  { m with conversation_active := false }

/-- `is_conversation_active`. -/
def ConvManager.isConversationActive (m : ConvManager) : Bool :=
  m.conversation_active

/-- `get_conversation_summary`. -/
def ConvManager.getConversationSummary (m : ConvManager) : String :=
  if m.conversation_history.isEmpty then "No conversation history."
  else
    m.conversation_history.enum.foldl
      (fun acc p =>
        let role := if p.2.role == "assistant" then "Security AI" else "Intruder"
        acc ++ toString (p.1 + 1) ++ ". " ++ role ++ ": " ++ p.2.content ++ "\n")
      "Conversation Summary:\n"

/-! ## face_recognition_system.py -/

/-- One `os.listdir(dataset_path)` entry: the name, whether it is a directory,
and — for each image file inside — the outcome of loading/encoding it:
`.error` when the library call raises, `.ok encs` the encodings it found. -/
structure DatasetEntry where
  person_name : String
  is_dir : Bool
  images : List (Except Unit (List Enc))
deriving Repr

/-- The inner image loop of `load_known_faces`: failed images are skipped
(exception caught and printed), images with no face contribute nothing,
otherwise the first encoding is appended. -/
def personEncodings (images : List (Except Unit (List Enc))) : List Enc :=
  images.foldl
    (fun encodings img =>
      match img with
      | .error _ => encodings
      | .ok [] => encodings
      | .ok (e :: _) => encodings ++ [e])
    []

/-- One `os.listdir` entry of `load_known_faces`: non-directories are
skipped, a person with no successfully encoded image is not added. -/
def loadFaceStep (known_faces : List (String × List Enc)) (entry : DatasetEntry) :
    List (String × List Enc) :=
  if entry.is_dir then
    let encodings := personEncodings entry.images
    if !encodings.isEmpty then known_faces ++ [(entry.person_name, encodings)]
    else known_faces
  else known_faces

/-- `load_known_faces`: fold over the dataset listing (insertion-ordered map,
as a Python dict preserves insertion order). -/
def load_known_faces (dataset : List DatasetEntry) : List (String × List Enc) :=
  dataset.foldl loadFaceStep []

/-- The dict loop of `recognize_face` / the worker: first person (in insertion
order) one of whose encodings matches, per the `compare_faces` oracle
`matchFn`. -/
def findMatchingPerson (matchFn : Enc → Enc → Bool) (unknown_encoding : Enc) :
    List (String × List Enc) → Option String
  | [] => none
  | (person_name, encodings) :: rest =>
    if encodings.any (fun k => matchFn k unknown_encoding) then some person_name
    else findMatchingPerson matchFn unknown_encoding rest

/-- `recognize_face`: `loadResult` is `none` when `load_image_file` raises
`FileNotFoundError` (caught, returns None) and otherwise the list of
encodings the library finds in the image. -/
def recognize_face (matchFn : Enc → Enc → Bool) (loadResult : Option (List Enc))
    (known_faces : List (String × List Enc)) : Option String :=
  match loadResult with
  | none => none
  | some [] => none
  | some (unknown_encoding :: _) =>
    match findMatchingPerson matchFn unknown_encoding known_faces with
    | some person_name => some person_name
    | none => some "Unknown"

/-! ## tts.py -/

/-- Failure oracle for the three external calls inside the `try` block of
`text_to_speech`, in program order: `gTTS(...).save`, `mixer.music.load`,
`mixer.music.play`.  A `false` field means that call raises. -/
structure TTSEnv where
  synth_ok : Bool
  load_ok : Bool
  play_ok : Bool
deriving Repr, DecidableEq

/-- `text_to_speech`: given the failure oracle, the `blocking` argument and
the global `is_speaking` flag, returns (return value, `is_speaking` after the
call returns).  The flag is set to True before synthesis; the except branch
returns False without clearing it; in the non-blocking case the flag is still
True at return time (a daemon thread clears it later). -/
def text_to_speech (env : TTSEnv) (blocking : Bool) (_is_speaking : Bool) : Bool × Bool :=
  let is_speaking := true
  if !env.synth_ok then (false, is_speaking)
  else if !env.load_ok then (false, is_speaking)
  else if !env.play_ok then (false, is_speaking)
  else if blocking then (true, false)
  else (true, is_speaking)

/-- `is_tts_speaking`: reads the global flag. -/
def is_tts_speaking (is_speaking : Bool) : Bool := is_speaking

/-- `text_to_speech_async`: spawns a daemon thread running
`text_to_speech(text, blocking=True)` and returns True immediately; the pair
records (immediate return value, the flag once the spawned call has run). -/
def text_to_speech_async (env : TTSEnv) (is_speaking : Bool) : Bool × Bool :=
  (true, (text_to_speech env true is_speaking).2)

/-! ## asr.py — ASRListener -/

/-- Outcome of one pass of the `while self.listening` body once audio is
attempted: a recognized utterance, or one of the caught exception classes. -/
inductive ListenEvent where
  | recognized (t : String)
  | unknownValue
  | requestErr
  | waitTimeout
  | otherErr
deriving Repr, DecidableEq

/-- `ASRListener.__init__` builds `queue.Queue()`: default maxsize 0, which
the queue library treats as unbounded. -/
def asrInitQueue : PyQueue String := { maxsize := 0, items := [] }

/-- One iteration of `_listen_worker`: when TTS is speaking the pass is
skipped entirely; a recognized utterance is enqueued; every caught error is
printed and the loop simply continues with fresh audio (no retry of the
failed audio). -/
def listen_step (tts_speaking : Bool) (ev : ListenEvent) (text_queue : PyQueue String) :
    PyQueue String :=
  if tts_speaking then text_queue
  else
    match ev with
    | .recognized t =>
      match text_queue.put t with
      | some q => q
      | none => text_queue
    | .unknownValue => text_queue
    | .requestErr => text_queue
    | .waitTimeout => text_queue
    | .otherErr => text_queue

/-- The worker over a whole schedule of (TTS-speaking?, audio outcome) pairs;
each audio event is consumed exactly once. -/
def listen_run (evs : List (Bool × ListenEvent)) (q : PyQueue String) : PyQueue String :=
  evs.foldl (fun q p => listen_step p.1 p.2 q) q

/-- `ASRListener.get_text`: `get_nowait`, returning None (never raising) when
the queue is empty. -/
def asrGetText (q : PyQueue String) : Option String × PyQueue String :=
  match q.getNow with
  | none => (none, q)
  | some (t, q2) => (some t, q2)

/-- `ASRListener.has_text`. -/
def asrHasText (q : PyQueue String) : Bool := !q.isEmptyQ

/-! ## main.py — recognize_faces_worker and run_live_recognition -/

/-- Scaling face locations back up by 4 in the worker. -/
def scaleUp4 (loc : Loc) : Loc :=
  (4 * loc.1, 4 * loc.2.1, 4 * loc.2.2.1, 4 * loc.2.2.2)

/-- Name assignment in the worker loop: "Unknown" unless some known person
matches (first match in dict order wins). -/
def workerNameFor (matchFn : Enc → Enc → Bool) (known_faces : List (String × List Enc))
    (face_encoding : Enc) : String :=
  if known_faces.isEmpty then "Unknown"
  else
    match findMatchingPerson matchFn face_encoding known_faces with
    | some person_name => person_name
    | none => "Unknown"

/-- Body of `recognize_faces_worker` for one dequeued frame: the detected
faces are the library oracle `detected`; locations are scaled by 4 and the
result list is `put` with the BLOCKING `Queue.put` (`none` = the worker
blocks because the result queue is full). -/
def recognize_faces_worker_step (matchFn : Enc → Enc → Bool)
    (known_faces : List (String × List Enc)) (detected : List (Loc × Enc))
    (result_queue : PyQueue (List RFace)) : Option (PyQueue (List RFace)) :=
  let recognized_faces :=
    detected.map (fun d => (scaleUp4 d.1, workerNameFor matchFn known_faces d.2))
  result_queue.put recognized_faces

/-- Observable actions the loop body performs (prints, TTS, thread handoffs). -/
inductive Event where
  | submitFrame (f : Frame)
  | alertUnknown
  | startConv
  | ttsAsync (t : String)
  | voiceHeard (t : String)
  | guardOn
  | guardOff
  | endConv
  | printSummary (s : String)
  | timeoutMsg
  | breakLoop
deriving Repr, DecidableEq

/-- The mutable state of `run_live_recognition` together with the shared
queues and the conversation manager. -/
structure MainState where
  guard_mode : Bool
  conversation_mode : Bool
  conversation_timeout : Nat
  last_unknown_alert_time : Nat
  recognized_faces : List RFace
  frame_count : Nat
  manager : ConvManager
  frame_queue : PyQueue Frame
  result_queue : PyQueue (List RFace)
  asr_queue : PyQueue String

/-- State at the top of the loop, as initialised by `run_live_recognition`
(both worker queues have `maxsize=1`; the ASR text queue is the listener's). -/
def initialState (gen : Option Gen) : MainState :=
  { guard_mode := false
    conversation_mode := false
    conversation_timeout := 0
    last_unknown_alert_time := 0
    recognized_faces := []
    frame_count := 0
    manager := ConvManager.init gen
    frame_queue := { maxsize := 1, items := [] }
    result_queue := { maxsize := 1, items := [] }
    asr_queue := asrInitQueue }

/-- Lines 112-117: increment `frame_count`; on every third frame, if the
frame queue is not full, hand the frame to the worker (drop otherwise). -/
def framePhase (frame : Frame) (st : MainState) : MainState × List Event :=
  let st := { st with frame_count := st.frame_count + 1 }
  if st.frame_count % 3 == 0 then
    if !st.frame_queue.full then
      match st.frame_queue.put frame with
      | some q => ({ st with frame_queue := q }, [.submitFrame frame])
      | none => (st, [])
    else (st, [])
  else (st, [])

/-- Lines 119-121: poll the result queue (read only after a non-empty check). -/
def resultPhase (st : MainState) : MainState :=
  if !st.result_queue.isEmptyQ then
    match st.result_queue.getNow with
    | some (faces, q) => { st with recognized_faces := faces, result_queue := q }
    | none => st
  else st

/-- Lines 126-141, one face: alert on an Unknown face if more than 10 s have
passed since the last alert; start the conversation (and speak the opening
message) only when not already in conversation mode. -/
def alertStep (now : Nat) (st : MainState) (face : RFace) : MainState × List Event :=
  if face.2 == "Unknown" && decide (st.last_unknown_alert_time + 10 < now) then
    let (st, evs) :=
      if !st.conversation_mode then
        let (opening_message, m) := st.manager.startConversation
        ({ st with conversation_mode := true, conversation_timeout := now + 60, manager := m },
         [Event.startConv, Event.ttsAsync opening_message])
      else (st, [])
    ({ st with last_unknown_alert_time := now }, Event.alertUnknown :: evs)
  else (st, [])

/-- One fold step of the guard-mode scan: thread the state, accumulate the
events. -/
def alertFoldStep (now : Nat) (p : MainState × List Event) (face : RFace) :
    MainState × List Event :=
  ((alertStep now p.1 face).1, p.2 ++ (alertStep now p.1 face).2)

/-- Lines 124-141: the guard-mode scan over the current recognition results. -/
def guardPhase (now : Nat) (st : MainState) : MainState × List Event :=
  if st.guard_mode then
    st.recognized_faces.foldl (alertFoldStep now) (st, [])
  else (st, [])

/-- Lines 143-167: the guard-mode display block.  The drawing and window
calls have no effect on the loop state; the one control effect is the
`waitKey` poll: with guard mode on, a 'q' key press (`qKey`, the oracle for
`cv2.waitKey(1) & 0xFF == ord('q')`) breaks the loop (`false` = break).
Outside guard mode the window is closed and the loop just sleeps briefly. -/
def displayPhase (qKey : Bool) (st : MainState) : Bool :=
  if st.guard_mode then !qKey else true

/-- Lines 182-203: voice-command processing (only reached when not in
conversation mode).  Returns the new state, the events, and whether the loop
continues (`false` = the quit branch breaks). -/
def commandBranch (spoken_text : String) (st : MainState) : MainState × List Event × Bool :=
  let spoken_lower := pyLower spoken_text
  if strContains spoken_lower "guard" && strContains spoken_lower "room" then
    ({ st with guard_mode := true }, [Event.guardOn], true)
  else if strContains spoken_lower "stop" && strContains spoken_lower "guard" then
    let st := { st with guard_mode := false, conversation_mode := false }
    if st.manager.isConversationActive then
      ({ st with manager := st.manager.endConversation }, [Event.guardOff, Event.endConv], true)
    else (st, [Event.guardOff], true)
  else if ["quit", "exit", "close"].any (fun w => strContains spoken_lower w) then
    (st, [Event.breakLoop], false)
  else (st, [], true)

/-- Lines 169-203: poll the ASR queue; in conversation mode the utterance is
the intruder's reply (spoken back, timeout reset to now + 60), otherwise it is
a voice command. -/
def asrPhase (now : Nat) (st : MainState) : MainState × List Event × Bool :=
  if asrHasText st.asr_queue then
    match asrGetText st.asr_queue with
    | (some spoken_text, q) =>
      let st := { st with asr_queue := q }
      if st.conversation_mode then
        let (ai_response, m) := st.manager.processIntruderResponse spoken_text
        ({ st with manager := m, conversation_timeout := now + 60 },
         [Event.voiceHeard spoken_text, Event.ttsAsync ai_response], true)
      else
        let p := commandBranch spoken_text st
        (p.1, Event.voiceHeard spoken_text :: p.2.1, p.2.2)
    | (none, _) => (st, [], true)
  else (st, [], true)

/-- The final spoken warning of the timeout branch. -/
def timeoutWarning : String :=
  "You have not responded. Security has been notified. Leave immediately."

/-- Lines 205-213: conversation timeout check. -/
def timeoutPhase (now : Nat) (st : MainState) : MainState × List Event :=
  if st.conversation_mode && decide (st.conversation_timeout < now) then
    let st := { st with conversation_mode := false }
    if st.manager.isConversationActive then
      let summary := st.manager.getConversationSummary
      ({ st with manager := st.manager.endConversation },
       [Event.timeoutMsg, Event.printSummary summary, Event.endConv,
        Event.ttsAsync timeoutWarning])
    else (st, [Event.timeoutMsg])
  else (st, [])

/-- One iteration of the `while True` loop of `run_live_recognition`.
`capture` is the oracle for `video_capture.read()` (`none` = `ret` false,
which breaks the loop); `qKey` the oracle for the display block's
`waitKey` 'q' poll, which breaks the loop from guard mode after the guard
scan and before the ASR and timeout phases; `now` stands for the
`time.time()` readings of the iteration.  Returns (state, events in program
order, continue?). -/
def loopStep (now : Nat) (capture : Option Frame) (qKey : Bool) (st : MainState) :
    MainState × List Event × Bool :=
  match capture with
  | none => (st, [Event.breakLoop], false)
  | some frame =>
    let p1 := framePhase frame st
    let st1 := resultPhase p1.1
    let p2 := guardPhase now st1
    if displayPhase qKey p2.1 then
      let p3 := asrPhase now p2.1
      if p3.2.2 then
        let p4 := timeoutPhase now p3.1
        (p4.1, p1.2 ++ p2.2 ++ p3.2.1 ++ p4.2, true)
      else (p3.1, p1.2 ++ p2.2 ++ p3.2.1, false)
    else (p2.1, p1.2 ++ p2.2 ++ [Event.breakLoop], false)

/-- Invariant tying the loop flag to the manager: whenever the loop is in
conversation mode, the manager's conversation is active. -/
def ConvInv (st : MainState) : Prop :=
  st.conversation_mode = true → st.manager.conversation_active = true

/-! ## Concrete states used in instantiations -/

/-- Fresh system state (model failed to load, so the fallback dialogue is in
use). -/
def exSt0 : MainState := initialState none

/-- Guard mode off; the worker has delivered one face named "Unknown". -/
def exStUnknownOff : MainState :=
  { exSt0 with result_queue := { maxsize := 1, items := [[((1, 2, 3, 4), "Unknown")]] } }

/-- As `exStUnknownOff` but with guard mode on. -/
def exStUnknownOn : MainState := { exStUnknownOff with guard_mode := true }

/-- In an active conversation (timeout stamp 40), one utterance pending. -/
def exStConv : MainState :=
  { exSt0 with
    conversation_mode := true
    manager := (exSt0.manager.startConversation).2
    conversation_timeout := 40
    asr_queue := { maxsize := 0, items := ["hello"] } }

/-- In an active conversation, no pending utterance. -/
def exStConvQuiet : MainState := { exStConv with asr_queue := asrInitQueue }

/-- As `exStConvQuiet` but with guard mode on — as in every reachable
conversation iteration, since a conversation only starts under guard mode. -/
def exStConvGuard : MainState := { exStConvQuiet with guard_mode := true }

/-- A full `maxsize=1` result queue. -/
def exFullResultQueue : PyQueue (List RFace) :=
  { maxsize := 1, items := [[((0, 0, 0, 0), "X")]] }

/-- State whose frame queue is full. -/
def exStFrameFull : MainState :=
  { exSt0 with frame_queue := { maxsize := 1, items := [5] } }

/-! ## Helper lemmas -/

theorem findMatchingPerson_none_of (m : Enc → Enc → Bool) (e : Enc)
    (l : List (String × List Enc)) (h : ∀ p ∈ l, p.2.any (fun k => m k e) = false) :
    findMatchingPerson m e l = none := by
  induction l with
  | nil => rfl
  | cons hd rest ih =>
    obtain ⟨n, encs⟩ := hd
    have h0 : encs.any (fun k => m k e) = false := h (n, encs) (List.mem_cons_self _ _)
    simp only [findMatchingPerson, h0, Bool.false_eq_true, if_false]
    exact ih (fun p hp => h p (List.mem_cons_of_mem _ hp))

theorem findMatchingPerson_finds (m : Enc → Enc → Bool) (e : Enc)
    (l : List (String × List Enc)) (h : ∃ p ∈ l, p.2.any (fun k => m k e) = true) :
    ∃ p ∈ l, p.2.any (fun k => m k e) = true ∧ findMatchingPerson m e l = some p.1 := by
  induction l with
  | nil => simp at h
  | cons hd rest ih =>
    obtain ⟨n, encs⟩ := hd
    by_cases h0 : encs.any (fun k => m k e) = true
    · exact ⟨(n, encs), List.mem_cons_self _ _, h0, by simp [findMatchingPerson, h0]⟩
    · have h0' : encs.any (fun k => m k e) = false := by
        simpa using h0
      obtain ⟨p, hp, hm⟩ := h
      rcases List.mem_cons.mp hp with rfl | hp'
      · exact absurd hm h0
      · obtain ⟨p', hp'', hm', hf⟩ := ih ⟨p, hp', hm⟩
        exact ⟨p', List.mem_cons_of_mem _ hp'', hm',
          by simp only [findMatchingPerson, h0', Bool.false_eq_true, if_false]; exact hf⟩

theorem loadFaceStep_keys (dataset : List DatasetEntry) :
    ∀ acc : List (String × List Enc),
      (dataset.foldl loadFaceStep acc).map Prod.fst =
        acc.map Prod.fst ++
          (dataset.filter (fun e => e.is_dir && !(personEncodings e.images).isEmpty)).map
            DatasetEntry.person_name := by
  induction dataset with
  | nil => intro acc; simp
  | cons e ds ih =>
    intro acc
    rw [List.foldl_cons, List.filter_cons]
    by_cases hd : e.is_dir = true
    · by_cases hne : (personEncodings e.images).isEmpty = true
      · have h1 : loadFaceStep acc e = acc := by simp [loadFaceStep, hd, hne]
        rw [h1, ih acc]
        simp [hd, hne]
      · have hne' : (personEncodings e.images).isEmpty = false := by simpa using hne
        have h1 : loadFaceStep acc e = acc ++ [(e.person_name, personEncodings e.images)] := by
          simp [loadFaceStep, hd, hne']
        rw [h1, ih (acc ++ [(e.person_name, personEncodings e.images)])]
        simp [hd, hne']
    · have hd' : e.is_dir = false := by simpa using hd
      have h1 : loadFaceStep acc e = acc := by simp [loadFaceStep, hd']
      rw [h1, ih acc]
      simp [hd']

/-! ## Claims -/

/-- Claim C7: external-call failures are caught, printed and skipped with no
retry.  (1) an image whose load/encoding raises is simply skipped by
`load_known_faces` (same result as if the image were absent, each image
visited once); (2) the returned map's keys are exactly the directory entries
with at least one successfully encoded image — a person with none is omitted,
and the fold never propagates a failure; (3-5) the ASR listen worker leaves
the text queue untouched on `RequestError`, `UnknownValueError` or any other
caught exception and just proceeds with the remaining audio, re-attempting
nothing. -/
theorem claim_C7 :
    (∀ pre post, personEncodings (pre ++ Except.error () :: post) =
      personEncodings (pre ++ post)) ∧
    (∀ dataset, (load_known_faces dataset).map Prod.fst =
      (dataset.filter (fun e => e.is_dir && !(personEncodings e.images).isEmpty)).map
        DatasetEntry.person_name) ∧
    (∀ pre post (q : PyQueue String) b,
      listen_run (pre ++ (b, ListenEvent.requestErr) :: post) q = listen_run (pre ++ post) q) ∧
    (∀ pre post (q : PyQueue String) b,
      listen_run (pre ++ (b, ListenEvent.unknownValue) :: post) q = listen_run (pre ++ post) q) ∧
    (∀ pre post (q : PyQueue String) b,
      listen_run (pre ++ (b, ListenEvent.otherErr) :: post) q = listen_run (pre ++ post) q) := by
  refine ⟨?_, ?_, ?_, ?_, ?_⟩
  · intro pre post
    unfold personEncodings
    rw [List.foldl_append, List.foldl_append, List.foldl_cons]
  · intro dataset
    unfold load_known_faces
    rw [loadFaceStep_keys dataset []]
    simp
  · intro pre post q b
    unfold listen_run
    rw [List.foldl_append, List.foldl_append, List.foldl_cons]
    cases b <;> rfl
  · intro pre post q b
    unfold listen_run
    rw [List.foldl_append, List.foldl_append, List.foldl_cons]
    cases b <;> rfl
  · intro pre post q b
    unfold listen_run
    rw [List.foldl_append, List.foldl_append, List.foldl_cons]
    cases b <;> rfl

/-- Claim C8: the main loop never blocks on a queue: `ASRListener.get_text`
uses a non-blocking get and returns `none` (never raises) on an empty queue,
and recognition results are read only behind a non-empty check — on an empty
result queue the polling phase is the identity (no blocking read happens). -/
theorem claim_C8 :
    (∀ q : PyQueue String, q.items = [] → asrGetText q = (none, q)) ∧
    (∀ q : PyQueue String, asrHasText q = false → asrGetText q = (none, q)) ∧
    (∀ st : MainState, st.result_queue.items = [] → resultPhase st = st) ∧
    (∀ st : MainState, st.result_queue.isEmptyQ = false →
      resultPhase st = { st with
        recognized_faces := st.result_queue.items.headD []
        result_queue := { st.result_queue with items := st.result_queue.items.tail } }) := by
  refine ⟨?_, ?_, ?_, ?_⟩
  · intro q hq
    simp [asrGetText, PyQueue.getNow, hq]
  · intro q hq
    have hitems : q.items = [] := by
      simpa [asrHasText, PyQueue.isEmptyQ, List.isEmpty_iff] using hq
    simp [asrGetText, PyQueue.getNow, hitems]
  · intro st hq
    simp [resultPhase, PyQueue.isEmptyQ, hq]
  · intro st hq
    have hne : st.result_queue.items ≠ [] := by
      simpa [PyQueue.isEmptyQ, List.isEmpty_iff] using hq
    obtain ⟨a, rest, hrest⟩ := List.exists_cons_of_ne_nil hne
    simp [resultPhase, PyQueue.isEmptyQ, PyQueue.getNow, hrest]

/-- Claim C8 witness at concrete inputs. -/
theorem claim_C8_witness :
    asrGetText asrInitQueue = (none, asrInitQueue) ∧ resultPhase exSt0 = exSt0 :=
  ⟨claim_C8.1 asrInitQueue rfl, claim_C8.2.2.1 exSt0 rfl⟩

/-- Claim C9: `text_to_speech` sets the shared `is_speaking` flag before
synthesizing; each failing external call (synthesis, load, play) makes it
return `false` with the flag left `true` — the flag is not restored on error —
so `is_tts_speaking` then reports `true` and the ASR listen worker keeps
skipping its listen pass. -/
theorem claim_C9 :
    (∀ env b s, env.synth_ok = false → text_to_speech env b s = (false, true)) ∧
    (∀ env b s, env.synth_ok = true → env.load_ok = false →
      text_to_speech env b s = (false, true)) ∧
    (∀ env b s, env.synth_ok = true → env.load_ok = true → env.play_ok = false →
      text_to_speech env b s = (false, true)) ∧
    (∀ env s, env.synth_ok = false →
      is_tts_speaking (text_to_speech env true s).2 = true ∧
      (∀ ev q, listen_step (is_tts_speaking (text_to_speech env true s).2) ev q = q)) := by
  refine ⟨?_, ?_, ?_, ?_⟩
  · intro env b s h
    simp [text_to_speech, h]
  · intro env b s h1 h2
    simp [text_to_speech, h1, h2]
  · intro env b s h1 h2 h3
    simp [text_to_speech, h1, h2, h3]
  · intro env s h
    constructor
    · simp [text_to_speech, h, is_tts_speaking]
    · intro ev q
      simp [text_to_speech, h, is_tts_speaking, listen_step]

/-- Claim C9 witness at a concrete failing environment. -/
theorem claim_C9_witness :
    text_to_speech ⟨false, true, true⟩ true false = (false, true) ∧
    is_tts_speaking (text_to_speech ⟨false, true, true⟩ true false).2 = true :=
  ⟨claim_C9.1 ⟨false, true, true⟩ true false rfl,
   (claim_C9.2.2.2 ⟨false, true, true⟩ false rfl).1⟩

/-- Claim C10: `recognize_face` returns `none` exactly when the image fails
to load (`FileNotFoundError`) or contains no face encoding; when some known
person's encodings match the first detected face it returns the (first, in
dict order) matching person's name; when nobody matches it returns
"Unknown". -/
theorem claim_C10 (matchFn : Enc → Enc → Bool) (loadResult : Option (List Enc))
    (known_faces : List (String × List Enc)) :
    (recognize_face matchFn loadResult known_faces = none ↔
      loadResult = none ∨ loadResult = some []) ∧
    (∀ e es, loadResult = some (e :: es) →
      ((∃ p ∈ known_faces, p.2.any (fun k => matchFn k e) = true) →
        ∃ p ∈ known_faces, p.2.any (fun k => matchFn k e) = true ∧
          recognize_face matchFn loadResult known_faces = some p.1) ∧
      ((∀ p ∈ known_faces, p.2.any (fun k => matchFn k e) = false) →
        recognize_face matchFn loadResult known_faces = some "Unknown")) := by
  constructor
  · cases loadResult with
    | none => simp [recognize_face]
    | some l =>
      cases l with
      | nil => simp [recognize_face]
      | cons e es =>
        cases h : findMatchingPerson matchFn e known_faces <;>
          simp [recognize_face, h]
  · intro e es hload
    subst hload
    constructor
    · intro hex
      obtain ⟨p, hp, hm, hf⟩ := findMatchingPerson_finds matchFn e known_faces hex
      exact ⟨p, hp, hm, by simp [recognize_face, hf]⟩
    · intro hall
      have hf := findMatchingPerson_none_of matchFn e known_faces hall
      simp [recognize_face, hf]

/-- Claim C10 witness: a concrete matching case and a concrete no-match
case. -/
theorem claim_C10_witness :
    (∃ p ∈ [("alice", [5]), ("bob", [7])], p.2.any (fun k => (k == (7 : Enc))) = true ∧
      recognize_face (fun a b => a == b) (some [7]) [("alice", [5]), ("bob", [7])] = some p.1) ∧
    recognize_face (fun a b => a == b) (some [9]) [("alice", [5]), ("bob", [7])] = some "Unknown" :=
  ⟨((claim_C10 (fun a b => a == b) (some [7]) [("alice", [5]), ("bob", [7])]).2 7 []
      rfl).1 ⟨("bob", [7]), by decide, by decide⟩,
   ((claim_C10 (fun a b => a == b) (some [9]) [("alice", [5]), ("bob", [7])]).2 9 []
      rfl).2 (by decide)⟩

/-- Claim C5: for an utterance processed as a voice command, a lowercased
text containing both "guard" and "room" activates guard mode — even when it
also contains "stop" (the activation branch is checked first) — while the
deactivation branch runs exactly for texts containing "stop" and "guard" but
not "room", and that branch clears guard mode, conversation mode and any
active conversation. -/
theorem claim_C5 (st : MainState) (t : String) :
    (strContains (pyLower t) "guard" = true → strContains (pyLower t) "room" = true →
      (commandBranch t st).1.guard_mode = true ∧
      (commandBranch t st).2 = ([Event.guardOn], true)) ∧
    (Event.guardOff ∈ (commandBranch t st).2.1 ↔
      (strContains (pyLower t) "stop" = true ∧ strContains (pyLower t) "guard" = true ∧
        strContains (pyLower t) "room" = false)) ∧
    (Event.guardOff ∈ (commandBranch t st).2.1 →
      (commandBranch t st).1.guard_mode = false ∧
      (commandBranch t st).1.conversation_mode = false ∧
      (commandBranch t st).1.manager.conversation_active = false) := by
  cases hg : strContains (pyLower t) "guard" <;>
  cases hr : strContains (pyLower t) "room" <;>
  cases hs : strContains (pyLower t) "stop" <;>
  cases hq : ["quit", "exit", "close"].any (fun w => strContains (pyLower t) w) <;>
  cases ha : st.manager.conversation_active <;>
    simp [commandBranch, hg, hr, hs, hq, ha, ConvManager.isConversationActive,
      ConvManager.endConversation]

/-- Claim C5 witness: "stop guarding my room" contains "stop", "guard" and
"room", and still activates guard mode. -/
theorem claim_C5_witness :
    (commandBranch "stop guarding my room" exSt0).1.guard_mode = true ∧
    (commandBranch "stop guarding my room" exSt0).2 = ([Event.guardOn], true) :=
  (claim_C5 exSt0 "stop guarding my room").1 (by decide) (by decide)

/-- Claim C2 counterexample: the ASR recognized-text queue is created as
`queue.Queue()` — maxsize 0, i.e. unbounded — and holds two items after two
puts, so its capacity is not 1; and the recognition worker's `put` on a full
`maxsize=1` result queue blocks (`none`) instead of dropping. -/
theorem claim_C2_counterexample :
    asrInitQueue.maxsize = 0 ∧
    (asrInitQueue.put "a").bind (fun q => q.put "b") =
      some { maxsize := 0, items := ["a", "b"] } ∧
    recognize_faces_worker_step (fun _ _ => false) [] [] exFullResultQueue = none :=
  ⟨rfl, rfl, rfl⟩

/-- Claim C2 (amended): the frame queue and the result queue have capacity
exactly 1 and the main-loop frame producer drops the frame when its queue is
full; but the ASR text queue is unbounded (maxsize 0: a put always succeeds
and appends), and the worker's put into the result queue blocks when it is
full rather than dropping. -/
theorem claim_C2 (gen : Option Gen) :
    (initialState gen).frame_queue.maxsize = 1 ∧
    (initialState gen).result_queue.maxsize = 1 ∧
    (initialState gen).asr_queue.maxsize = 0 ∧
    (∀ (f : Frame) (st : MainState), st.frame_queue.full = true →
      (framePhase f st).1.frame_queue = st.frame_queue ∧ (framePhase f st).2 = []) ∧
    (∀ matchFn known detected (rq : PyQueue (List RFace)), rq.full = true →
      recognize_faces_worker_step matchFn known detected rq = none) ∧
    (∀ (q : PyQueue String) (t : String), q.maxsize = 0 →
      q.put t = some { q with items := q.items ++ [t] }) := by
  refine ⟨rfl, rfl, rfl, ?_, ?_, ?_⟩
  · intro f st hfull
    simp [framePhase, hfull]
  · intro matchFn known detected rq hfull
    unfold recognize_faces_worker_step PyQueue.put
    simp [hfull]
  · intro q t h0
    simp [PyQueue.put, PyQueue.full, h0]

/-- Claim C2 witness at concrete inputs. -/
theorem claim_C2_witness :
    ((framePhase 9 exStFrameFull).1.frame_queue = exStFrameFull.frame_queue ∧
      (framePhase 9 exStFrameFull).2 = []) ∧
    recognize_faces_worker_step (fun _ _ => true) [] [] exFullResultQueue = none ∧
    asrInitQueue.put "hi" = some { asrInitQueue with items := asrInitQueue.items ++ ["hi"] } :=
  ⟨(claim_C2 none).2.2.2.1 9 exStFrameFull (by decide),
   (claim_C2 none).2.2.2.2.1 (fun _ _ => true) [] [] exFullResultQueue (by decide),
   (claim_C2 none).2.2.2.2.2 asrInitQueue "hi" rfl⟩

theorem asrPhase_nil_eq (now : Nat) (st : MainState) (hq : st.asr_queue.items = []) :
    asrPhase now st = (st, [], true) := by
  unfold asrPhase
  simp [asrHasText, PyQueue.isEmptyQ, hq]

theorem asrPhase_conv_eq (now : Nat) (st : MainState) (t : String) (rest : List String)
    (hc : st.conversation_mode = true) (hq : st.asr_queue.items = t :: rest) :
    asrPhase now st =
      ({ st with
          asr_queue := { st.asr_queue with items := rest }
          manager := (st.manager.processIntruderResponse t).2
          conversation_timeout := now + 60 },
       [Event.voiceHeard t, Event.ttsAsync (st.manager.processIntruderResponse t).1], true) := by
  unfold asrPhase
  simp [asrHasText, asrGetText, PyQueue.getNow, PyQueue.isEmptyQ, hq, hc]

theorem asrPhase_cmd_eq (now : Nat) (st : MainState) (t : String) (rest : List String)
    (hc : st.conversation_mode = false) (hq : st.asr_queue.items = t :: rest) :
    asrPhase now st =
      ((commandBranch t { st with asr_queue := { st.asr_queue with items := rest } }).1,
       Event.voiceHeard t ::
         (commandBranch t { st with asr_queue := { st.asr_queue with items := rest } }).2.1,
       (commandBranch t { st with asr_queue := { st.asr_queue with items := rest } }).2.2) := by
  unfold asrPhase
  simp [asrHasText, asrGetText, PyQueue.getNow, PyQueue.isEmptyQ, hq, hc]

/-- Claim C3: with conversation mode set and an utterance pending, the ASR
phase consumes the utterance, forwards it to `process_intruder_response`,
speaks exactly the returned reply, resets the timeout to now + 60, and
processes no voice command: the state changes only in the manager, the
timeout and the queue, and the only events are the command print and the
spoken reply. -/
theorem claim_C3 (now : Nat) (st : MainState) (t : String) (rest : List String)
    (hc : st.conversation_mode = true) (hq : st.asr_queue.items = t :: rest) :
    asrPhase now st =
      ({ st with
          asr_queue := { st.asr_queue with items := rest }
          manager := (st.manager.processIntruderResponse t).2
          conversation_timeout := now + 60 },
       [Event.voiceHeard t, Event.ttsAsync (st.manager.processIntruderResponse t).1], true) :=
  asrPhase_conv_eq now st t rest hc hq

/-- Claim C3 witness at a concrete in-conversation state. -/
theorem claim_C3_witness :
    asrPhase 100 exStConv =
      ({ exStConv with
          asr_queue := { exStConv.asr_queue with items := [] }
          manager := (exStConv.manager.processIntruderResponse "hello").2
          conversation_timeout := 160 },
       [Event.voiceHeard "hello",
        Event.ttsAsync (exStConv.manager.processIntruderResponse "hello").1], true) :=
  claim_C3 100 exStConv "hello" [] rfl rfl

theorem alertFold_mem_mono (now : Nat) (faces : List RFace) :
    ∀ (st : MainState) (evs0 : List Event) (e : Event), e ∈ evs0 →
      e ∈ (faces.foldl (alertFoldStep now) (st, evs0)).2 := by
  induction faces with
  | nil => intro st evs0 e h; simpa using h
  | cons face rest ih =>
    intro st evs0 e h
    rw [List.foldl_cons, alertFoldStep]
    exact ih _ _ e (List.mem_append_left _ h)

theorem alertFold_triggers (now : Nat) (faces : List RFace) :
    ∀ (st : MainState) (evs0 : List Event),
      st.conversation_mode = false → st.last_unknown_alert_time + 10 < now →
      (∃ loc, (loc, "Unknown") ∈ faces) →
      Event.alertUnknown ∈ (faces.foldl (alertFoldStep now) (st, evs0)).2 ∧
      Event.startConv ∈ (faces.foldl (alertFoldStep now) (st, evs0)).2 ∧
      Event.ttsAsync openingMessage ∈ (faces.foldl (alertFoldStep now) (st, evs0)).2 := by
  induction faces with
  | nil => intro st evs0 _ _ hface; simp at hface
  | cons face rest ih =>
    intro st evs0 hc halert hface
    by_cases htrig : (face.2 == "Unknown" && decide (st.last_unknown_alert_time + 10 < now)) = true
    · have hstep : (alertStep now st face).2 =
          [Event.alertUnknown, Event.startConv, Event.ttsAsync openingMessage] := by
        unfold alertStep ConvManager.startConversation
        rw [if_pos htrig]
        simp [hc]
      rw [List.foldl_cons, alertFoldStep]
      have hm := alertFold_mem_mono now rest (alertStep now st face).1
        (evs0 ++ (alertStep now st face).2)
      refine ⟨hm _ ?_, hm _ ?_, hm _ ?_⟩ <;>
        (apply List.mem_append_right; rw [hstep]; simp)
    · have hstep1 : (alertStep now st face).1 = st := by
        unfold alertStep; rw [if_neg htrig]
      have hstep2 : (alertStep now st face).2 = [] := by
        unfold alertStep; rw [if_neg htrig]
      have hface' : ∃ loc, (loc, "Unknown") ∈ rest := by
        obtain ⟨loc, hmem⟩ := hface
        rcases List.mem_cons.mp hmem with heq | hmem'
        · exact absurd (by rw [← heq]; simp [halert]) htrig
        · exact ⟨loc, hmem'⟩
      rw [List.foldl_cons]
      have hacc : alertFoldStep now (st, evs0) face = (st, evs0) := by
        simp [alertFoldStep, hstep1, hstep2]
      rw [hacc]
      exact ih st evs0 hc halert hface'

theorem guardPhase_mem_loopStep (now : Nat) (f : Frame) (qKey : Bool) (st : MainState)
    (e : Event) (h : e ∈ (guardPhase now (resultPhase (framePhase f st).1)).2) :
    e ∈ (loopStep now (some f) qKey st).2.1 := by
  cases hdisp : displayPhase qKey (guardPhase now (resultPhase (framePhase f st).1)).1 <;>
  cases hcont : (asrPhase now (guardPhase now (resultPhase (framePhase f st).1)).1).2.2 <;>
    simp only [loopStep, hdisp, hcont, Bool.false_eq_true, if_false, if_true,
      List.mem_append] <;>
    tauto

/-- Claim C1 counterexample: with guard mode off, an iteration whose face
results contain a face named "Unknown" triggers nothing: no alert is printed,
no conversation is started, nothing is handed to TTS (the event list is
empty and conversation mode stays off), even though the results were polled
into the state. -/
theorem claim_C1_counterexample :
    (loopStep 100 (some 7) false exStUnknownOff).1.recognized_faces =
      [((1, 2, 3, 4), "Unknown")] ∧
    (loopStep 100 (some 7) false exStUnknownOff).2.1 = [] ∧
    (loopStep 100 (some 7) false exStUnknownOff).1.conversation_mode = false :=
  ⟨rfl, rfl, rfl⟩

/-- Claim C1 (amended): in a main-loop iteration where — at the guard-mode
check — guard mode is on, conversation mode is not yet set, more than 10
seconds have passed since the last unknown alert, and the current recognition
results contain a face named "Unknown", the loop prints the alert, calls
`start_conversation` and hands its opening message to
`text_to_speech_async`. -/
theorem claim_C1 (now : Nat) (f : Frame) (qKey : Bool) (st : MainState)
    (hg : (resultPhase (framePhase f st).1).guard_mode = true)
    (hc : (resultPhase (framePhase f st).1).conversation_mode = false)
    (halert : (resultPhase (framePhase f st).1).last_unknown_alert_time + 10 < now)
    (hface : ∃ loc, (loc, "Unknown") ∈ (resultPhase (framePhase f st).1).recognized_faces) :
    Event.alertUnknown ∈ (loopStep now (some f) qKey st).2.1 ∧
    Event.startConv ∈ (loopStep now (some f) qKey st).2.1 ∧
    Event.ttsAsync openingMessage ∈ (loopStep now (some f) qKey st).2.1 := by
  have key := alertFold_triggers now (resultPhase (framePhase f st).1).recognized_faces
    (resultPhase (framePhase f st).1) [] hc halert hface
  have hg2 : (guardPhase now (resultPhase (framePhase f st).1)).2 =
      ((resultPhase (framePhase f st).1).recognized_faces.foldl (alertFoldStep now)
        (resultPhase (framePhase f st).1, [])).2 := by
    unfold guardPhase
    rw [if_pos hg]
  refine ⟨guardPhase_mem_loopStep now f qKey st _ ?_,
    guardPhase_mem_loopStep now f qKey st _ ?_,
    guardPhase_mem_loopStep now f qKey st _ ?_⟩ <;> rw [hg2]
  · exact key.1
  · exact key.2.1
  · exact key.2.2

/-- Claim C1 witness: with guard mode on and a pending "Unknown" result, the
iteration alerts, starts the conversation and speaks the opening message. -/
theorem claim_C1_witness :
    Event.alertUnknown ∈ (loopStep 100 (some 7) false exStUnknownOn).2.1 ∧
    Event.startConv ∈ (loopStep 100 (some 7) false exStUnknownOn).2.1 ∧
    Event.ttsAsync openingMessage ∈ (loopStep 100 (some 7) false exStUnknownOn).2.1 :=
  claim_C1 100 7 false exStUnknownOn (by decide) (by decide) (by decide)
    ⟨(1, 2, 3, 4), by decide⟩

theorem alertStep_no_submit (now : Nat) (st : MainState) (face : RFace) (f : Frame) :
    Event.submitFrame f ∉ (alertStep now st face).2 := by
  unfold alertStep
  by_cases h1 : (face.2 == "Unknown" && decide (st.last_unknown_alert_time + 10 < now)) = true
  · rw [if_pos h1]
    by_cases h2 : (!st.conversation_mode) = true
    · simp [h2, ConvManager.startConversation]
    · simp [h2]
  · rw [if_neg h1]; simp

theorem alertFold_no_submit (now : Nat) (faces : List RFace) :
    ∀ (st : MainState) (evs0 : List Event) (f : Frame),
      Event.submitFrame f ∉ evs0 →
      Event.submitFrame f ∉ (faces.foldl (alertFoldStep now) (st, evs0)).2 := by
  induction faces with
  | nil => intro st evs0 f h; simpa using h
  | cons face rest ih =>
    intro st evs0 f h
    rw [List.foldl_cons, alertFoldStep]
    apply ih
    intro hmem
    rcases List.mem_append.mp hmem with h1 | h2
    · exact h h1
    · exact alertStep_no_submit now st face f h2

theorem guardPhase_no_submit (now : Nat) (st : MainState) (f : Frame) :
    Event.submitFrame f ∉ (guardPhase now st).2 := by
  unfold guardPhase
  split
  · exact alertFold_no_submit now st.recognized_faces st [] f (by simp)
  · simp

theorem commandBranch_no_submit (t : String) (st : MainState) (f : Frame) :
    Event.submitFrame f ∉ (commandBranch t st).2.1 := by
  cases hg : strContains (pyLower t) "guard" <;>
  cases hr : strContains (pyLower t) "room" <;>
  cases hs : strContains (pyLower t) "stop" <;>
  cases hq : ["quit", "exit", "close"].any (fun w => strContains (pyLower t) w) <;>
  cases ha : st.manager.conversation_active <;>
    simp [commandBranch, hg, hr, hs, hq, ha, ConvManager.isConversationActive]

theorem asrPhase_no_submit (now : Nat) (st : MainState) (f : Frame) :
    Event.submitFrame f ∉ (asrPhase now st).2.1 := by
  unfold asrPhase
  cases hq : st.asr_queue.items with
  | nil => simp [asrHasText, PyQueue.isEmptyQ, hq, asrGetText, PyQueue.getNow]
  | cons t rest =>
    cases hc : st.conversation_mode <;>
      simp [asrHasText, PyQueue.isEmptyQ, hq, asrGetText, PyQueue.getNow, hc,
        commandBranch_no_submit]

theorem timeoutPhase_no_submit (now : Nat) (st : MainState) (f : Frame) :
    Event.submitFrame f ∉ (timeoutPhase now st).2 := by
  unfold timeoutPhase
  by_cases h1 : (st.conversation_mode && decide (st.conversation_timeout < now)) = true
  · rw [if_pos h1]
    by_cases h2 : st.manager.isConversationActive = true <;> simp [h2]
  · rw [if_neg h1]; simp

theorem framePhase_submit_iff (f : Frame) (st : MainState) :
    Event.submitFrame f ∈ (framePhase f st).2 ↔
      ((st.frame_count + 1) % 3 = 0 ∧ st.frame_queue.full = false) := by
  by_cases h3 : (st.frame_count + 1) % 3 = 0
  · by_cases hfull : st.frame_queue.full = true
    · simp [framePhase, h3, hfull, PyQueue.put]
    · have hfull' : st.frame_queue.full = false := by simpa using hfull
      simp [framePhase, h3, hfull', PyQueue.put]
  · simp [framePhase, h3]

/-- Claim C6: in an iteration that captured a frame, the frame is handed to
the recognition worker if and only if the incremented frame counter is a
multiple of 3 and the frame queue is not full; otherwise the frame is never
submitted (no other part of the loop submits frames). -/
theorem claim_C6 (now : Nat) (f : Frame) (qKey : Bool) (st : MainState) :
    Event.submitFrame f ∈ (loopStep now (some f) qKey st).2.1 ↔
      ((st.frame_count + 1) % 3 = 0 ∧ st.frame_queue.full = false) := by
  cases hdisp : displayPhase qKey (guardPhase now (resultPhase (framePhase f st).1)).1 <;>
  cases hcont : (asrPhase now (guardPhase now (resultPhase (framePhase f st).1)).1).2.2 <;>
    simp [loopStep, hdisp, hcont, List.mem_append, framePhase_submit_iff,
      guardPhase_no_submit, asrPhase_no_submit, timeoutPhase_no_submit]

theorem generateResponse_active (m : ConvManager) (t : String) :
    (m.generateResponse t).2.conversation_active = m.conversation_active := rfl

theorem processIntruder_active (m : ConvManager) (t : String) :
    (m.processIntruderResponse t).2.conversation_active = true := by
  unfold ConvManager.processIntruderResponse
  cases h : m.conversation_active
  · simp [h, ConvManager.startConversation]
  · simp [h, generateResponse_active]

theorem framePhase_conv (f : Frame) (st : MainState) :
    (framePhase f st).1.conversation_mode = st.conversation_mode ∧
    (framePhase f st).1.manager = st.manager := by
  by_cases h3 : ((st.frame_count + 1) % 3 == 0) = true <;>
  by_cases hf : st.frame_queue.full = true <;>
    simp [framePhase, h3, hf, PyQueue.put]

theorem resultPhase_conv (st : MainState) :
    (resultPhase st).conversation_mode = st.conversation_mode ∧
    (resultPhase st).manager = st.manager := by
  unfold resultPhase
  by_cases h : st.result_queue.isEmptyQ = true
  · simp [h]
  · rcases hg : st.result_queue.getNow with _ | ⟨faces, q⟩ <;> simp [h, hg]

theorem alertStep_state (now : Nat) (st : MainState) (face : RFace) :
    ((alertStep now st face).1.conversation_mode = st.conversation_mode ∧
      (alertStep now st face).1.manager = st.manager) ∨
    ((alertStep now st face).1.conversation_mode = true ∧
      (alertStep now st face).1.manager.conversation_active = true) := by
  unfold alertStep
  by_cases h1 : (face.2 == "Unknown" && decide (st.last_unknown_alert_time + 10 < now)) = true
  · rw [if_pos h1]
    by_cases h2 : (!st.conversation_mode) = true
    · right; simp [h2, ConvManager.startConversation]
    · left; simp [h2]
  · rw [if_neg h1]; left; exact ⟨rfl, rfl⟩

theorem convInv_alertStep (now : Nat) (st : MainState) (face : RFace) (h : ConvInv st) :
    ConvInv (alertStep now st face).1 := by
  rcases alertStep_state now st face with ⟨h1, h2⟩ | ⟨h1, h2⟩
  · intro hm
    rw [h2]
    exact h (by rw [← h1]; exact hm)
  · intro _
    exact h2

theorem convInv_alertFold (now : Nat) (faces : List RFace) :
    ∀ (p : MainState × List Event), ConvInv p.1 →
      ConvInv (faces.foldl (alertFoldStep now) p).1 := by
  induction faces with
  | nil => intro p h; exact h
  | cons face rest ih =>
    intro p h
    rw [List.foldl_cons]
    exact ih _ (convInv_alertStep now p.1 face h)

theorem convInv_guardPhase (now : Nat) (st : MainState) (h : ConvInv st) :
    ConvInv (guardPhase now st).1 := by
  unfold guardPhase
  split
  · exact convInv_alertFold now st.recognized_faces (st, []) h
  · exact h

theorem commandBranch_convmode (t : String) (st : MainState)
    (h : st.conversation_mode = false) :
    (commandBranch t st).1.conversation_mode = false := by
  cases hg : strContains (pyLower t) "guard" <;>
  cases hr : strContains (pyLower t) "room" <;>
  cases hs : strContains (pyLower t) "stop" <;>
  cases hq : ["quit", "exit", "close"].any (fun w => strContains (pyLower t) w) <;>
  cases ha : st.manager.conversation_active <;>
    simp [commandBranch, hg, hr, hs, hq, ha, ConvManager.isConversationActive,
      ConvManager.endConversation, h]

theorem convInv_asrPhase (now : Nat) (st : MainState) (h : ConvInv st) :
    ConvInv (asrPhase now st).1 := by
  cases hq : st.asr_queue.items with
  | nil =>
    rw [asrPhase_nil_eq now st hq]
    exact h
  | cons t rest =>
    cases hc : st.conversation_mode
    · rw [asrPhase_cmd_eq now st t rest hc hq]
      intro hm
      rw [commandBranch_convmode t _ (by simpa using hc)] at hm
      exact Bool.noConfusion hm
    · rw [asrPhase_conv_eq now st t rest hc hq]
      intro _
      exact processIntruder_active st.manager t

theorem convInv_timeoutPhase (now : Nat) (st : MainState) (h : ConvInv st) :
    ConvInv (timeoutPhase now st).1 := by
  unfold timeoutPhase
  by_cases h1 : (st.conversation_mode && decide (st.conversation_timeout < now)) = true
  · rw [if_pos h1]
    by_cases h2 : st.manager.isConversationActive = true <;> simp [ConvInv, h2]
  · rw [if_neg h1]
    exact h

theorem convInv_loopStep (now : Nat) (cap : Option Frame) (qKey : Bool) (st : MainState)
    (h : ConvInv st) : ConvInv (loopStep now cap qKey st).1 := by
  cases cap with
  | none => exact h
  | some f =>
    have h1 : ConvInv (framePhase f st).1 := by
      intro hm
      rw [(framePhase_conv f st).2]
      exact h (by rw [← (framePhase_conv f st).1]; exact hm)
    have h2 : ConvInv (resultPhase (framePhase f st).1) := by
      intro hm
      rw [(resultPhase_conv _).2]
      exact h1 (by rw [← (resultPhase_conv _).1]; exact hm)
    have h3 := convInv_guardPhase now _ h2
    have h4 := convInv_asrPhase now _ h3
    have h5 := convInv_timeoutPhase now _ h4
    cases hdisp : displayPhase qKey (guardPhase now (resultPhase (framePhase f st).1)).1
    · simp only [loopStep, hdisp, Bool.false_eq_true, if_false]
      exact h3
    · cases hcont : (asrPhase now (guardPhase now (resultPhase (framePhase f st).1)).1).2.2 <;>
        simp only [loopStep, hdisp, hcont, Bool.false_eq_true, if_false, if_true]
      · exact h4
      · exact h5

/-- Claim C4 counterexample: with conversation mode set, the conversation
active, the timeout exceeded, and guard mode on — as it is in every reachable
conversation iteration, since conversations only start under guard mode — a
'q' key press makes the iteration break out of the loop right after the
guard scan: conversation mode is not cleared and no summary, conversation
end, or spoken warning is produced in that iteration. -/
theorem claim_C4_counterexample :
    exStConvGuard.conversation_mode = true ∧
    exStConvGuard.manager.conversation_active = true ∧
    exStConvGuard.conversation_timeout < 100 ∧
    (loopStep 100 (some 7) true exStConvGuard).1.conversation_mode = true ∧
    (loopStep 100 (some 7) true exStConvGuard).1.manager.conversation_active = true ∧
    (loopStep 100 (some 7) true exStConvGuard).2.1 = [Event.breakLoop] ∧
    (loopStep 100 (some 7) true exStConvGuard).2.2 = false :=
  ⟨rfl, rfl, by decide, rfl, rfl, rfl, rfl⟩

/-- Claim C4 (amended): when conversation mode is set and the current time
exceeds the conversation timeout at the end-of-iteration check, the
iteration — provided it does not first break out of the loop via the
guard-window 'q' key — clears conversation mode, prints the conversation
summary, calls `end_conversation` and speaks the final warning.  The
conjuncts: (1) the timeout branch does exactly that whenever the manager's
conversation is active; (2-3) the invariant "conversation mode implies an
active conversation" holds initially and is preserved by every loop
iteration, so the active-conversation premise holds in any reachable
iteration; (4) every iteration that does not break — neither at the display
block's 'q' poll nor at the quit voice command — ends with exactly this
timeout check. -/
theorem claim_C4 :
    (∀ (now : Nat) (st : MainState), st.conversation_mode = true →
      st.manager.conversation_active = true → st.conversation_timeout < now →
      (timeoutPhase now st).1.conversation_mode = false ∧
      (timeoutPhase now st).1.manager.conversation_active = false ∧
      (timeoutPhase now st).2 =
        [Event.timeoutMsg, Event.printSummary (st.manager.getConversationSummary),
         Event.endConv, Event.ttsAsync timeoutWarning]) ∧
    (∀ gen, ConvInv (initialState gen)) ∧
    (∀ now cap qKey st, ConvInv st → ConvInv (loopStep now cap qKey st).1) ∧
    (∀ (now : Nat) (f : Frame) (qKey : Bool) (st : MainState),
      displayPhase qKey (guardPhase now (resultPhase (framePhase f st).1)).1 = true →
      (asrPhase now (guardPhase now (resultPhase (framePhase f st).1)).1).2.2 = true →
      (loopStep now (some f) qKey st).1 =
        (timeoutPhase now
          (asrPhase now (guardPhase now (resultPhase (framePhase f st).1)).1).1).1) := by
  refine ⟨?_, ?_, convInv_loopStep, ?_⟩
  · intro now st hm ha hto
    unfold timeoutPhase
    rw [if_pos (by simp [hm, hto])]
    simp [ConvManager.isConversationActive, ha, ConvManager.endConversation]
  · intro gen
    intro hm
    exact Bool.noConfusion hm
  · intro now f qKey st hdisp hcont
    simp only [loopStep, hdisp, hcont, if_true]

/-- Claim C4 witness: a concrete timed-out conversation state with no 'q'
press. -/
theorem claim_C4_witness :
    ((timeoutPhase 100 exStConvQuiet).1.conversation_mode = false ∧
      (timeoutPhase 100 exStConvQuiet).1.manager.conversation_active = false ∧
      (timeoutPhase 100 exStConvQuiet).2 =
        [Event.timeoutMsg, Event.printSummary (exStConvQuiet.manager.getConversationSummary),
         Event.endConv, Event.ttsAsync timeoutWarning]) ∧
    ConvInv (initialState none) ∧
    ConvInv (loopStep 100 (some 7) false exStConvGuard).1 ∧
    (loopStep 100 (some 7) false exStConvGuard).1 =
      (timeoutPhase 100
        (asrPhase 100 (guardPhase 100 (resultPhase (framePhase 7 exStConvGuard).1)).1).1).1 :=
  ⟨claim_C4.1 100 exStConvQuiet rfl rfl (by decide),
   claim_C4.2.1 none,
   claim_C4.2.2.1 100 (some 7) false exStConvGuard (fun _ => rfl),
   claim_C4.2.2.2 100 7 false exStConvGuard rfl rfl⟩

end GuardSystem
